import Mathlib

/-!
Verification development for the Sweep repository core: the Usage Quota
Governor (`sweepai/utils/chat_logger.py`) and the Event Classifier &
Dispatcher (`sweepai/api.py`).  Each Python function used by the claims is
shallowly embedded as an executable Lean definition; theorems about the
embedding settle the spec claims.
-/

namespace Sweep

/-! ## String helpers (Python `.lower()` and `in`) -/

/-- Python `str.lower()` on one character (ASCII case mapping), as a code
point. -/
def lowerCode (c : Char) : Nat :=
  if 65 ≤ c.toNat ∧ c.toNat ≤ 90 then c.toNat + 32 else c.toNat

/-- A string as its list of lowercased code points. -/
def lowerList (s : String) : List Nat :=
  s.toList.map lowerCode

/-- Python's substring test `pat in s`, over code-point lists. -/
def listContainsSub (pat s : List Nat) : Bool :=
  match s with
  | [] => pat.isEmpty
  | _ :: rest => pat.isPrefixOf s || listContainsSub pat rest

/-- Python's `pat.lower() in s.lower()`. -/
def lowerContains (pat s : String) : Bool :=
  listContainsSub (lowerList pat) (lowerList s)

/-! ## Quota governor state (`ChatLogger` in `chat_logger.py`)

The Mongo `tickets` collection is modelled as a map from username to a
record holding the per-period counters (a total function from period key
to `Nat`, absent keys reading 0, which is exactly Mongo's `$inc`/projection
default) and the two tier flags.  `ticket_collection = none` models the
uninitialized collection (`initialize_mongodb` failed or no key). -/

/-- One document of the `tickets` collection, keyed by username. -/
structure TicketRecord where
  counters : String → Nat
  is_paying_user : Bool
  is_trial_user : Bool

/-- The `tickets` collection: at most one record per username. -/
structure TicketStore where
  records : String → Option TicketRecord

/-- The `ChatLogger` state used by the quota decision: the `data` dict's
`username`/`assignee` fields, the (possibly uninitialized) ticket
collection, and the period keys computed from UTC wall clock. -/
structure ChatLogger where
  data_username : String
  data_assignee : Option String
  ticket_collection : Option TicketStore
  current_date : String
  current_month : String

/-- Counter read helper: the value of `key` in the record of `username`,
0 when the record or the field is absent. -/
def countOf (store : TicketStore) (username key : String) : Nat :=
  match store.records username with
  | none => 0
  | some r => r.counters key

/-- Mongo `update_one({"username": u}, {"$inc": {k: 1 for k in keys}}, upsert=True)`:
increments each listed field by 1, creating the document if absent. -/
def upsertInc (store : TicketStore) (username : String) (keys : List String) :
    TicketStore :=
  { records := fun u =>
      if u = username then
        match store.records u with
        | none =>
          some { counters := fun k => if keys.contains k then 1 else 0
                 is_paying_user := false
                 is_trial_user := false }
        | some r =>
          some { r with counters := fun k =>
                   if keys.contains k then r.counters k + 1 else r.counters k }
      else store.records u }

/-- `ChatLogger.add_successful_ticket`: no-op when the collection is
uninitialized; otherwise increments, for the assignee if present else the
username, either the `{month}_gpt3` field (gpt3 path) or the month and
date fields (default path), with upsert semantics. -/
def add_successful_ticket (cl : ChatLogger) (gpt3 : Bool := false) : ChatLogger :=
  match cl.ticket_collection with
  | none => cl
  | some store =>
    let username := cl.data_assignee.getD cl.data_username
    let store' :=
      if gpt3 then
        upsertInc store username [cl.current_month ++ "_gpt3"]
      else
        upsertInc store username [cl.current_month, cl.current_date]
    { cl with ticket_collection := some store' }

/-- `ChatLogger.get_ticket_count`: 0 when the collection is uninitialized;
otherwise reads the month field, the date field when `use_date`, or the
`{month}_gpt3` field when `gpt3` (gpt3 overrides use_date), defaulting
to 0. -/
def get_ticket_count (cl : ChatLogger) (use_date : Bool := false)
    (gpt3 : Bool := false) : Nat :=
  match cl.ticket_collection with
  | none => 0
  | some store =>
    let tracking_date := if use_date then cl.current_date else cl.current_month
    let tracking_date := if gpt3 then cl.current_month ++ "_gpt3" else tracking_date
    countOf store cl.data_username tracking_date

/-- `ChatLogger.is_paying_user`: false when the collection is uninitialized
or the user has no record; otherwise the record's flag (default false). -/
def is_paying_user (cl : ChatLogger) : Bool :=
  match cl.ticket_collection with
  | none => false
  | some store =>
    match store.records cl.data_username with
    | none => false
    | some r => r.is_paying_user

/-- `ChatLogger.is_trial_user`: false when the collection is uninitialized
or the user has no record; otherwise the record's flag (default false). -/
def is_trial_user (cl : ChatLogger) : Bool :=
  match cl.ticket_collection with
  | none => false
  | some store =>
    match store.records cl.data_username with
    | none => false
    | some r => r.is_trial_user

/-! ## Geolocation (`check_location_and_ticket_count`)

The free-tier branch fetches the user's declared location through the
hosting-platform client and geocodes it with Nominatim.  The whole
external interaction is summarized by a `GeoOutcome` oracle: either the
geocoder produced a value (`none` when it found no match, otherwise a
location whose raw `display_name` may itself be missing), or one of the
exception classes the code catches was raised.  An unset declared
location makes the geopy call raise, which the blanket `except Exception`
catches — it is the `otherError` outcome. -/

/-- A geocoded location: only its raw `display_name` is consulted. -/
structure GeoLocation where
  display_name : Option String

/-- Outcome of `g.get_user(username).location` plus
`Nominatim(...).geocode(loc_user, exactly_one=True)`. -/
inductive GeoOutcome
  | ok (loc : Option GeoLocation)
  | timedOut
  | serviceError
  | otherError

/-- `ChatLogger.is_supported_country`: iterates the configured
`SUPPORT_COUNTRY` list, testing `c.lower() in loc.raw.get("display_name").lower()`.
Accessing the display name of a `None` location, or lowercasing a missing
display name, raises `AttributeError`, modelled as `.error ()`.  An empty
allow-list returns `false` without touching the location. -/
def is_supported_country (countries : List String) (loc : Option GeoLocation) :
    Except Unit Bool :=
  match countries with
  | [] => .ok false
  | c :: rest =>
    match loc with
    | none => .error ()
    | some l =>
      match l.display_name with
      | none => .error ()
      | some d =>
        if lowerContains c d then .ok true
        else is_supported_country rest (some l)

/-- `ChatLogger.check_location_and_ticket_count`: when geocoding yields a
location that is not in the allow-list, degrade iff monthly ≥ 5 or
daily ≥ 1; on any caught exception (geocoder timeout, service error,
anything else — including `AttributeError` from a null location or
display name) or when the location is supported, fall through to
monthly ≥ 5 or daily > 3. -/
def check_location_and_ticket_count (cl : ChatLogger) (countries : List String)
    (geo : GeoOutcome) : Bool :=
  let fallback := decide (5 ≤ get_ticket_count cl) ||
    decide (3 < get_ticket_count cl true)
  match geo with
  | .ok loc =>
    match is_supported_country countries loc with
    | .error _ => fallback
    | .ok true => fallback
    | .ok false =>
      decide (5 ≤ get_ticket_count cl) || decide (1 ≤ get_ticket_count cl true)
  | .timedOut => fallback
  | .serviceError => fallback
  | .otherError => fallback

/-- `ChatLogger.use_faster_model`: true when the collection is
uninitialized; else paying users degrade at monthly ≥ 500, trial users at
monthly ≥ 15, and everyone else by `check_location_and_ticket_count`. -/
def use_faster_model (cl : ChatLogger) (countries : List String)
    (geo : GeoOutcome) : Bool :=
  match cl.ticket_collection with
  | none => true
  | some _ =>
    if is_paying_user cl then decide (500 ≤ get_ticket_count cl)
    else if is_trial_user cl then decide (15 ≤ get_ticket_count cl)
    else check_location_and_ticket_count cl countries geo

/-- `add_successful_ticket` iterated N times (`record_ticket` called N
times for the same logger within one day: the period keys stay fixed). -/
def recordN (cl : ChatLogger) (gpt3 : Bool) : Nat → ChatLogger
  | 0 => cl
  | n + 1 => add_successful_ticket (recordN cl gpt3 n) gpt3

/-- The counter value `record_ticket` writes to: the field `key` of the
effective user's document (the assignee when present, else the username). -/
def storeCount (cl : ChatLogger) (key : String) : Nat :=
  match cl.ticket_collection with
  | none => 0
  | some st => countOf st (cl.data_assignee.getD cl.data_username) key

/-- Concrete logger fixture: single user "alice" with the given tier flags
and month/day counts, on fixed period keys. -/
def mkLogger (paying trial : Bool) (monthly daily : Nat) : ChatLogger :=
  { data_username := "alice"
    data_assignee := none
    ticket_collection := some
      { records := fun u =>
          if u = "alice" then
            some { counters := fun k =>
                     if k = "07/2023" then monthly
                     else if k = "07/2023/15" then daily
                     else 0
                   is_paying_user := paying
                   is_trial_user := trial }
          else none }
    current_date := "07/2023/15"
    current_month := "07/2023" }

/-! ## Event classifier & dispatcher (`api.py`)

The `webhook` endpoint reads the `X-GitHub-Event` header and the payload's
`action`, then dispatches on the pair.  Each handled case first validates
the payload against a pydantic schema (raising `ValidationError`, turned
into a 422), then filters and forwards.  The schema module
(`sweepai/events.py`) is not part of the two source files; the typed
request records below are modelled from the spec's NormalizedTrigger
description and from the fields `api.py` itself accesses (optionality is
taken from the code's own guards: `request.issue is not None`,
`body or ""`, `description or ""`). -/

/-- Modelled from the spec: a platform user reference (login, account
type). `sweepai/events.py` is outside the two source files. -/
structure EventUser where
  login : String
  type : String

/-- Modelled from the spec: an issue label. -/
structure EventLabel where
  name : String

/-- Modelled from the spec: the issue object of an issue event; `body` may
be absent upstream, `pull_request` marks that the issue is a PR. -/
structure EventIssue where
  title : String
  body : Option String
  number : Nat
  html_url : String
  user : EventUser
  labels : List EventLabel
  pull_request : Option Unit

/-- Modelled from the spec: repository identity; `description` may be
absent upstream. -/
structure EventRepository where
  full_name : String
  description : Option String

/-- Modelled from the spec: installation identity. -/
structure EventInstallation where
  id : Nat

/-- Modelled from the spec: a comment on an issue or PR. -/
structure EventComment where
  id : Nat
  body : String
  user : EventUser
  path : Option String
  original_line : Option Nat

/-- Modelled from the spec: `IssueRequest` — issue events. The code guards
`request.issue is not None`, so the issue object is optional. -/
structure IssueRequest where
  issue : Option EventIssue
  repository : EventRepository
  installation : EventInstallation

/-- Modelled from the spec: `IssueCommentRequest` — issue-comment events. -/
structure IssueCommentRequest where
  issue : Option EventIssue
  comment : EventComment
  repository : EventRepository
  installation : EventInstallation

/-- Modelled from the spec: a PR head reference. -/
structure PRHead where
  ref : String

/-- Modelled from the spec: the PR object of a review-comment event. -/
structure EventPullRequest where
  number : Nat
  head : PRHead

/-- Modelled from the spec: `CommentCreatedRequest` — PR review comments. -/
structure CommentCreatedRequest where
  pull_request : EventPullRequest
  comment : EventComment
  repository : EventRepository
  installation : EventInstallation

/-- Modelled from the spec: a check run, carrying its associated pull
requests (possibly none). -/
structure EventCheckRun where
  pull_requests : List EventPullRequest

/-- Modelled from the spec: `CheckRunCompleted`. -/
structure CheckRunCompleted where
  check_run : EventCheckRun
  sender : EventUser
  repository : EventRepository
  installation : EventInstallation

/-- Modelled from the spec: `ReposAddedRequest`. -/
structure ReposAddedRequest where
  repositories_added : List EventRepository
  installation : EventInstallation

/-- Modelled from the spec: `InstallationCreatedRequest`. -/
structure InstallationCreatedRequest where
  repositories : List EventRepository
  installation : EventInstallation

/-- Modelled from the spec: the closed-PR object; `user` is the PR author
(the commit author in the code's naming), `merged_by` the merging user.
The schema is taken to require `merged_by`, so payloads lacking it fail
validation. -/
structure ClosedPullRequest where
  user : EventUser
  merged_by : EventUser

/-- Modelled from the spec: `PRRequest` — closed-PR events. -/
structure PRRequest where
  pull_request : ClosedPullRequest
  repository : EventRepository
  installation : EventInstallation

/-- The inbound JSON body, as the outcome of each schema validation the
dispatcher may attempt (`none` = pydantic `ValidationError`), plus the raw
dict fields the `push` case reads without validation. -/
structure RawBody where
  asIssue : Option IssueRequest
  asIssueComment : Option IssueCommentRequest
  asCommentCreated : Option CommentCreatedRequest
  asCheckRun : Option CheckRunCompleted
  asReposAdded : Option ReposAddedRequest
  asInstallationCreated : Option InstallationCreatedRequest
  asPR : Option PRRequest
  raw_repository_full_name : Option String
  raw_installation_id : Option Nat

/-- Configuration constants from `sweepai/utils/constants.py` (not among
the two source files): the bot's login and the marker label name. -/
structure ApiConfig where
  sweepLogin : String
  labelName : String

/-- A downstream effect of the dispatcher: a task invocation, an analytics
event, or a platform mutation. Argument order follows the call sites in
`api.py`. -/
inductive Task
  | ensureLabelAttach (repoFullName : String) (issueNumber : Nat)
  | handleTicket (title : String) (body : Option String) (number : Nat)
      (htmlUrl : String) (authorLogin : String) (repoFullName : String)
      (repoDescription : Option String) (installationId : Nat)
      (commentId : Option Nat)
  | handleCommentTask (repoFullName : String) (repoDescription : Option String)
      (comment : Option String) (prPath : Option String)
      (prLine : Option Nat) (username : String) (installationId : Nat)
      (prNumber : Nat)
  | checkSuiteCall
  | analytics (distinctId : String) (eventName : String)
  | indexRepo (repoFullName : String) (installationId : Nat)
  | updateIndex (repoFullName : String) (installationId : Nat)

/-- The exception classes that can escape the endpoint uncaught (the
`except` clause only catches `ValidationError`). -/
inductive Exn
  | assertionError
  | attributeError
  | indexError
  | keyError
  | valueError

/-- Result of one endpoint invocation: an uncaught exception, or a reply
together with the effects dispatched before replying. -/
inductive WResult
  | thrown (e : Exn)
  | replied (r : List (String × String)) (tasks : List Task)

/-- The JSON reply `{"success": true}`. -/
def successReply : List (String × String) := [("success", "true")]

/-- The JSON reply `{"message": "pong"}`. -/
def pongReply : List (String × String) := [("message", "pong")]

/-- The 422 response FastAPI renders for the raised `HTTPException`. -/
def unprocessableReply : List (String × String) :=
  [("status", "422"), ("detail", "Failed to parse request")]

/-- Python `s.split("/")`, over characters: pieces between the `/`
separators, in order. -/
def splitSlashAux : List Char → List Char → List String
  | [], acc => [String.mk acc.reverse]
  | c :: rest, acc =>
    if c = '/' then String.mk acc.reverse :: splitSlashAux rest []
    else splitSlashAux rest (c :: acc)

/-- Python `s.split("/")` on a string. -/
def splitSlash (s : String) : List String :=
  splitSlashAux s.toList []

/-- Python `a, b = s.split("/")`: the two pieces, or `ValueError` when the
split does not yield exactly two. -/
def splitSlash2 (s : String) : Except Exn (String × String) :=
  match splitSlash s with
  | [a, b] => .ok (a, b)
  | _ => .error .valueError

/-- `case "issues", "opened"`: trigger-keyword check on the title, then
label bootstrap.  Accessing `request.issue.title` on an absent issue
raises `AttributeError`. -/
def handleIssuesOpened (b : RawBody) : WResult :=
  match b.asIssue with
  | none => .replied unprocessableReply []
  | some req =>
    match req.issue with
    | none => .thrown .attributeError
    | some issue =>
      let titleLower := lowerList issue.title
      if (lowerList "sweep").isPrefixOf titleLower ||
          listContainsSub (lowerList "sweep:") titleLower then
        .replied successReply [.ensureLabelAttach req.repository.full_name issue.number]
      else
        .replied successReply []

/-- `case "issues", "labeled"`: proceed when the issue exists and carries
the marker label (case-insensitive); body and description are normalized
with `or ""` before `handle_ticket.spawn`. -/
def handleIssuesLabeled (b : RawBody) : WResult :=
  match b.asIssue with
  | none => .replied unprocessableReply []
  | some req =>
    match req.issue with
    | none => .replied successReply []
    | some issue =>
      if (issue.labels.map (fun l => lowerList l.name)).contains (lowerList "sweep") then
        .replied successReply
          [.handleTicket issue.title (some (issue.body.getD "")) issue.number
            issue.html_url issue.user.login req.repository.full_name
            (some (req.repository.description.getD "")) req.installation.id none]
      else
        .replied successReply []

/-- `case "issue_comment", "created"`: the ticket branch (marker label,
human commenter) normalizes body and description; the PR branch
(`elif request.issue.pull_request and ...`) forwards the description
as-is and dereferences `request.issue` unguarded, raising
`AttributeError` when the issue object is absent. -/
def handleIssueComment (cfg : ApiConfig) (b : RawBody) : WResult :=
  match b.asIssueComment with
  | none => .replied unprocessableReply []
  | some req =>
    match req.issue with
    | none => .thrown .attributeError
    | some issue =>
      if (issue.labels.map (fun l => lowerList l.name)).contains (lowerList "sweep") &&
          req.comment.user.type = "User" then
        .replied successReply
          [.handleTicket issue.title (some (issue.body.getD "")) issue.number
            issue.html_url issue.user.login req.repository.full_name
            (some (req.repository.description.getD "")) req.installation.id
            (some req.comment.id)]
      else if issue.pull_request.isSome && issue.user.login = cfg.sweepLogin &&
          req.comment.user.type = "User" then
        .replied successReply
          [.handleCommentTask req.repository.full_name req.repository.description
            (some req.comment.body) none none req.comment.user.login
            req.installation.id issue.number]
      else
        .replied successReply []

/-- `case "pull_request_review_comment", "created"`: proceed when the head
branch name contains the reserved `sweep/` prefix; description forwarded
as-is, path and line forwarded unchanged. -/
def handleReviewComment (b : RawBody) : WResult :=
  match b.asCommentCreated with
  | none => .replied unprocessableReply []
  | some req =>
    if lowerContains "sweep/" req.pull_request.head.ref then
      .replied successReply
        [.handleCommentTask req.repository.full_name req.repository.description
          (some req.comment.body) req.comment.path req.comment.original_line
          req.comment.user.login req.installation.id req.pull_request.number]
    else
      .replied successReply []

/-- `case "check_run", "completed"`: synchronous `handle_check_suite.call`
(its returned logs are the `logs` oracle), then a comment-handling spawn
whose PR number indexes `pull_requests[0]`, raising `IndexError` when the
check run has no associated pull request. -/
def handleCheckRun (b : RawBody) (logs : Option String) : WResult :=
  match b.asCheckRun with
  | none => .replied unprocessableReply []
  | some req =>
    match req.check_run.pull_requests with
    | [] => .thrown .indexError
    | pr0 :: _ =>
      .replied successReply
        [.checkSuiteCall,
         .handleCommentTask req.repository.full_name req.repository.description
           logs none none req.sender.login req.installation.id pr0.number]

/-- The per-repository loop of the `installation_repositories` case: an
analytics event keyed by the organization (from `full_name.split("/")`,
raising `ValueError` on a malformed name) then a full-repository indexing,
for each added repository in order. -/
def reposAddedTasks (instId : Nat) : List EventRepository → Except Exn (List Task)
  | [] => .ok []
  | repo :: rest =>
    match splitSlash2 repo.full_name with
    | .error e => .error e
    | .ok (organization, _) =>
      match reposAddedTasks instId rest with
      | .error e => .error e
      | .ok ts =>
        .ok (.analytics organization "installed_repository" ::
          .indexRepo repo.full_name instId :: ts)

/-- `case "installation_repositories", "added"`: one analytics event, then
per repository an analytics event keyed by the organization (from
`full_name.split("/")`, raising `ValueError` on a malformed name) and a
full-repository indexing. -/
def handleReposAdded (b : RawBody) : WResult :=
  match b.asReposAdded with
  | none => .replied unprocessableReply []
  | some req =>
    match reposAddedTasks req.installation.id req.repositories_added with
    | .error e => .thrown e
    | .ok ts =>
      .replied successReply (.analytics "installation_repositories" "started" :: ts)

/-- `case "installation", "created"`: full-repository indexing per
repository, no analytics. -/
def handleInstallationCreated (b : RawBody) : WResult :=
  match b.asInstallationCreated with
  | none => .replied unprocessableReply []
  | some req =>
    .replied successReply
      (req.repositories.map (fun repo => .indexRepo repo.full_name req.installation.id))

/-- `case "pull_request", "closed"`: splits the repository full name
(`ValueError` if malformed), emits analytics only when the PR author is
the bot login, then unconditionally spawns the index refresh. -/
def handlePRClosed (cfg : ApiConfig) (b : RawBody) : WResult :=
  match b.asPR with
  | none => .replied unprocessableReply []
  | some req =>
    match splitSlash2 req.repository.full_name with
    | .error e => .thrown e
    | .ok _ =>
      let merged_by := req.pull_request.merged_by.login
      let analyticsTasks :=
        if cfg.sweepLogin = req.pull_request.user.login then
          [Task.analytics merged_by "merged_sweep_pr"]
        else []
      .replied successReply
        (analyticsTasks ++ [.updateIndex req.repository.full_name req.installation.id])

/-- `case "push", None`: the guard `event != "pull_request" or ...` is
always true here; the spawn reads the raw dict fields, raising `KeyError`
when either is missing. -/
def handlePush (b : RawBody) : WResult :=
  match b.raw_repository_full_name with
  | none => .thrown .keyError
  | some fullName =>
    match b.raw_installation_id with
    | none => .thrown .keyError
    | some instId => .replied successReply [.updateIndex fullName instId]

/-- The `match event, request_dict.get("action", None)` dispatch of the
`webhook` endpoint, for a present event header. -/
def route (cfg : ApiConfig) (e : String) (act : Option String) (b : RawBody)
    (logs : Option String) : WResult :=
  if e = "issues" ∧ act = some "opened" then handleIssuesOpened b
  else if e = "issues" ∧ act = some "labeled" then handleIssuesLabeled b
  else if e = "issue_comment" ∧ act = some "created" then handleIssueComment cfg b
  else if e = "pull_request_review_comment" ∧ act = some "created" then
    handleReviewComment b
  else if e = "pull_request_review" ∧ act = some "submitted" then
    .replied successReply []
  else if e = "check_run" ∧ act = some "completed" then handleCheckRun b logs
  else if e = "installation_repositories" ∧ act = some "added" then
    handleReposAdded b
  else if e = "installation" ∧ act = some "created" then
    handleInstallationCreated b
  else if e = "pull_request" ∧ act = some "closed" then handlePRClosed cfg b
  else if e = "push" ∧ act = none then handlePush b
  else if e = "ping" ∧ act = none then .replied pongReply []
  else .replied successReply []

/-- The `webhook` endpoint: `assert event is not None` raises an uncaught
`AssertionError` when the `X-GitHub-Event` header is absent; otherwise the
dispatch runs and, absent an uncaught exception, the reply is the success
acknowledgement, the pong, or the 422. -/
def webhook (cfg : ApiConfig) (event : Option String) (act : Option String)
    (b : RawBody) (logs : Option String) : WResult :=
  match event with
  | none => .thrown .assertionError
  | some e => route cfg e act b logs

/-- Exactly the inputs on which the dispatch raises an uncaught exception
(spec-side characterization, compared with `webhook` in the claims). -/
def dispatchRaises (event : Option String) (act : Option String) (b : RawBody) :
    Bool :=
  match event with
  | none => true
  | some e =>
    if e = "issues" ∧ act = some "opened" then
      match b.asIssue with
      | some req => req.issue.isNone
      | none => false
    else if e = "issue_comment" ∧ act = some "created" then
      match b.asIssueComment with
      | some req => req.issue.isNone
      | none => false
    else if e = "check_run" ∧ act = some "completed" then
      match b.asCheckRun with
      | some req => req.check_run.pull_requests.isEmpty
      | none => false
    else if e = "installation_repositories" ∧ act = some "added" then
      match b.asReposAdded with
      | some req =>
        req.repositories_added.any
          (fun repo => (splitSlash repo.full_name).length ≠ 2)
      | none => false
    else if e = "pull_request" ∧ act = some "closed" then
      match b.asPR with
      | some req => (splitSlash req.repository.full_name).length ≠ 2
      | none => false
    else if e = "push" ∧ act = none then
      b.raw_repository_full_name.isNone || b.raw_installation_id.isNone
    else false

/-! ## Concrete fixtures for the claims' witnesses and counterexamples -/

/-- A raw body on which every schema validation fails and the raw dict
fields are absent. -/
def emptyBody : RawBody :=
  { asIssue := none
    asIssueComment := none
    asCommentCreated := none
    asCheckRun := none
    asReposAdded := none
    asInstallationCreated := none
    asPR := none
    raw_repository_full_name := none
    raw_installation_id := none }

/-- Concrete configuration fixture. -/
def cfgX : ApiConfig := { sweepLogin := "sweep-ai[bot]", labelName := "sweep" }

/-- A closed-PR payload: PR authored by the bot, merged by a human. -/
def prClosedBody : RawBody :=
  { emptyBody with
    asPR := some
      { pull_request :=
          { user := { login := "sweep-ai[bot]", type := "Bot" }
            merged_by := { login := "alice", type := "User" } }
        repository := { full_name := "acme/widgets", description := none }
        installation := { id := 7 } } }

/-- A PR-review-comment payload on a `sweep/` branch whose repository has
no description. -/
def reviewCommentBody : RawBody :=
  { emptyBody with
    asCommentCreated := some
      { pull_request := { number := 3, head := { ref := "sweep/fix-1" } }
        comment :=
          { id := 11
            body := "fix this"
            user := { login := "alice", type := "User" }
            path := some "src/a.py"
            original_line := some 42 }
        repository := { full_name := "acme/widgets", description := none }
        installation := { id := 7 } } }

/-- An issue-labeled payload carrying the marker label, with absent issue
body and repository description. -/
def labeledBody : RawBody :=
  { emptyBody with
    asIssue := some
      { issue := some
          { title := "Sweep: fix bug"
            body := none
            number := 5
            html_url := "https://github.com/acme/widgets/issues/5"
            user := { login := "bob", type := "User" }
            labels := [{ name := "Sweep" }]
            pull_request := none }
        repository := { full_name := "acme/widgets", description := none }
        installation := { id := 7 } } }

/-- An issue-comment payload on a bot-authored pull request, commented by
a human, with absent repository description. -/
def prCommentBody : RawBody :=
  { emptyBody with
    asIssueComment := some
      { issue := some
          { title := "Sweep: fix bug"
            body := none
            number := 5
            html_url := "https://github.com/acme/widgets/issues/5"
            user := { login := "sweep-ai[bot]", type := "Bot" }
            labels := []
            pull_request := some () }
        comment :=
          { id := 12
            body := "please revise"
            user := { login := "alice", type := "User" }
            path := none
            original_line := none }
        repository := { full_name := "acme/widgets", description := none }
        installation := { id := 7 } } }

/-! ## Theorems: quota governor claims -/

/-- C5: when the ticket collection is uninitialized, `use_faster_model`
returns true regardless of tier, flags or geolocation, and
`add_successful_ticket` leaves the logger unchanged. -/
theorem c5_store_unavailable (cl : ChatLogger) (countries : List String)
    (geo : GeoOutcome) (g : Bool) (h : cl.ticket_collection = none) :
    use_faster_model cl countries geo = true ∧ add_successful_ticket cl g = cl := by
  unfold use_faster_model add_successful_ticket
  rw [h]
  exact ⟨rfl, rfl⟩

/-- Witness for C5 at a concrete logger with no collection. -/
def clNone : ChatLogger :=
  { data_username := "alice"
    data_assignee := none
    ticket_collection := none
    current_date := "07/2023/15"
    current_month := "07/2023" }

theorem c5_store_unavailable_witness :
    use_faster_model clNone [] .otherError = true ∧
      add_successful_ticket clNone false = clNone :=
  c5_store_unavailable clNone [] .otherError false rfl

/-- C7: for a paying user with an initialized collection, the decision is
false at monthly count 499 and true at 500, regardless of geolocation. -/
theorem c7_paying_boundary (cl : ChatLogger) (countries : List String)
    (geo : GeoOutcome) (st : TicketStore)
    (hcoll : cl.ticket_collection = some st)
    (hpay : is_paying_user cl = true) :
    (get_ticket_count cl = 499 → use_faster_model cl countries geo = false) ∧
    (get_ticket_count cl = 500 → use_faster_model cl countries geo = true) := by
  unfold use_faster_model
  rw [hcoll]
  simp only [hpay, if_true]
  constructor
  · intro h; rw [h]; decide
  · intro h; rw [h]; decide

theorem c7_paying_boundary_witness :
    use_faster_model (mkLogger true false 499 0) [] .otherError = false ∧
      use_faster_model (mkLogger true false 500 0) [] .otherError = true :=
  ⟨(c7_paying_boundary (mkLogger true false 499 0) [] .otherError _ rfl rfl).1 rfl,
   (c7_paying_boundary (mkLogger true false 500 0) [] .otherError _ rfl rfl).2 rfl⟩


/-- C1: on the free-tier branch (collection initialized, neither paying nor
trial), when geocoding yields a location outside the allow-list the
decision is monthly ≥ 5 ∨ daily ≥ 1; on a geocoder timeout, service
error, other caught exception, or a location the allow-list check cannot
resolve, it is monthly ≥ 5 ∨ daily > 3. -/
theorem c1_free_tier_rule4 (cl : ChatLogger) (countries : List String)
    (st : TicketStore) (hcoll : cl.ticket_collection = some st)
    (hpay : is_paying_user cl = false) (htrial : is_trial_user cl = false) :
    (∀ loc, is_supported_country countries loc = .ok false →
      (use_faster_model cl countries (.ok loc) = true ↔
        5 ≤ get_ticket_count cl ∨ 1 ≤ get_ticket_count cl true)) ∧
    (∀ geo, (geo = .timedOut ∨ geo = .serviceError ∨ geo = .otherError ∨
        ∃ loc, geo = .ok loc ∧ is_supported_country countries loc = .error ()) →
      (use_faster_model cl countries geo = true ↔
        5 ≤ get_ticket_count cl ∨ 3 < get_ticket_count cl true)) := by
  unfold use_faster_model
  rw [hcoll]
  simp only [hpay, htrial, if_false, Bool.false_eq_true]
  constructor
  · intro loc hsup
    simp [check_location_and_ticket_count, hsup]
  · intro geo hgeo
    rcases hgeo with rfl | rfl | rfl | ⟨loc, rfl, hsup⟩
    · simp [check_location_and_ticket_count]
    · simp [check_location_and_ticket_count]
    · simp [check_location_and_ticket_count]
    · simp [check_location_and_ticket_count, hsup]

theorem c1_free_tier_rule4_witness :
    (use_faster_model (mkLogger false false 0 1) ["France"]
        (.ok (some ⟨some "Berlin, Germany"⟩)) = true ↔
      5 ≤ get_ticket_count (mkLogger false false 0 1) ∨
        1 ≤ get_ticket_count (mkLogger false false 0 1) true) ∧
    (use_faster_model (mkLogger false false 0 3) ["France"] .otherError = true ↔
      5 ≤ get_ticket_count (mkLogger false false 0 3) ∨
        3 < get_ticket_count (mkLogger false false 0 3) true) :=
  ⟨(c1_free_tier_rule4 (mkLogger false false 0 1) ["France"] _ rfl rfl rfl).1
      (some ⟨some "Berlin, Germany"⟩) rfl,
   (c1_free_tier_rule4 (mkLogger false false 0 3) ["France"] _ rfl rfl rfl).2
      .otherError (Or.inr (Or.inr (Or.inl rfl)))⟩

/-- C10: on the free-tier branch, a successfully geocoded location inside
the allow-list does not short-circuit to false: the decision still is
monthly ≥ 5 ∨ daily > 3. -/
theorem c10_supported_country_falls_through (cl : ChatLogger)
    (countries : List String) (st : TicketStore) (loc : Option GeoLocation)
    (hcoll : cl.ticket_collection = some st)
    (hpay : is_paying_user cl = false) (htrial : is_trial_user cl = false)
    (hsup : is_supported_country countries loc = .ok true) :
    use_faster_model cl countries (.ok loc) = true ↔
      5 ≤ get_ticket_count cl ∨ 3 < get_ticket_count cl true := by
  unfold use_faster_model
  rw [hcoll]
  simp only [hpay, htrial, if_false, Bool.false_eq_true]
  simp [check_location_and_ticket_count, hsup]

theorem c10_supported_country_witness :
    use_faster_model (mkLogger false false 0 4) ["Germany"]
        (.ok (some ⟨some "Berlin, Germany"⟩)) = true ↔
      5 ≤ get_ticket_count (mkLogger false false 0 4) ∨
        3 < get_ticket_count (mkLogger false false 0 4) true :=
  c10_supported_country_falls_through (mkLogger false false 0 4) ["Germany"] _
    (some ⟨some "Berlin, Germany"⟩) rfl rfl rfl rfl


/-- The free-tier location check is monotone in the monthly count when the
daily count is held fixed. -/
theorem check_location_mono (cl1 cl2 : ChatLogger) (countries : List String)
    (geo : GeoOutcome)
    (hday : get_ticket_count cl1 true = get_ticket_count cl2 true)
    (hmon : get_ticket_count cl1 ≤ get_ticket_count cl2)
    (h : check_location_and_ticket_count cl1 countries geo = true) :
    check_location_and_ticket_count cl2 countries geo = true := by
  cases geo with
  | ok loc =>
    rcases hs : is_supported_country countries loc with u | bv
    · simp [check_location_and_ticket_count, hs] at h ⊢
      omega
    · cases bv <;> simp [check_location_and_ticket_count, hs] at h ⊢ <;> omega
  | timedOut =>
    simp [check_location_and_ticket_count] at h ⊢; omega
  | serviceError =>
    simp [check_location_and_ticket_count] at h ⊢; omega
  | otherError =>
    simp [check_location_and_ticket_count] at h ⊢; omega

/-- C6: `use_faster_model` is monotone in the monthly count for every
tier: holding store availability, the tier flags, the daily count, the
allow-list and the geolocation outcome fixed, a true decision stays true
as the monthly count grows. -/
theorem c6_monotone_monthly (cl1 cl2 : ChatLogger) (countries : List String)
    (geo : GeoOutcome)
    (hcoll : cl1.ticket_collection = none ↔ cl2.ticket_collection = none)
    (hpay : is_paying_user cl1 = is_paying_user cl2)
    (htrial : is_trial_user cl1 = is_trial_user cl2)
    (hday : get_ticket_count cl1 true = get_ticket_count cl2 true)
    (hmon : get_ticket_count cl1 ≤ get_ticket_count cl2)
    (h1 : use_faster_model cl1 countries geo = true) :
    use_faster_model cl2 countries geo = true := by
  rcases h2 : cl2.ticket_collection with _ | st2
  · simp [use_faster_model, h2]
  · rcases h1c : cl1.ticket_collection with _ | st1
    · exact absurd (hcoll.mp h1c) (by simp [h2])
    · unfold use_faster_model at h1 ⊢
      rw [h1c] at h1
      rw [h2]
      rw [← hpay, ← htrial]
      by_cases hp : is_paying_user cl1 = true
      · simp [hp] at h1 ⊢; omega
      · simp [hp] at h1 ⊢
        by_cases ht : is_trial_user cl1 = true
        · simp [ht] at h1 ⊢; omega
        · simp [ht] at h1 ⊢
          exact check_location_mono cl1 cl2 countries geo hday hmon h1

theorem c6_monotone_monthly_witness :
    use_faster_model (mkLogger false false 7 0) ["France"] .otherError = true :=
  c6_monotone_monthly (mkLogger false false 5 0) (mkLogger false false 7 0)
    ["France"] .otherError (by simp [mkLogger]) rfl rfl rfl (by decide) (by decide)


/-- Incrementing through `upsertInc` adds exactly 1 to each listed field
of the targeted user's document, whether or not the document existed. -/
theorem countOf_upsertInc (st : TicketStore) (u : String) (keys : List String)
    (k : String) :
    countOf (upsertInc st u keys) u k =
      countOf st u k + (if keys.contains k then 1 else 0) := by
  unfold countOf upsertInc
  simp only [if_pos rfl]
  rcases st.records u with _ | r
  · simp
  · simp
    split <;> simp

/-- `add_successful_ticket` only rewrites the ticket collection; the data
fields and period keys are untouched. -/
theorem add_ticket_fields (cl : ChatLogger) (g : Bool) :
    (add_successful_ticket cl g).data_username = cl.data_username ∧
    (add_successful_ticket cl g).data_assignee = cl.data_assignee ∧
    (add_successful_ticket cl g).current_month = cl.current_month ∧
    (add_successful_ticket cl g).current_date = cl.current_date := by
  unfold add_successful_ticket
  rcases cl.ticket_collection with _ | st <;> simp

/-- One `add_successful_ticket` call adds 1 to each key of the update's
`$inc` document — the gpt3 field alone on the gpt3 path, the month and
date fields otherwise. -/
theorem storeCount_add (cl : ChatLogger) (st : TicketStore)
    (hcoll : cl.ticket_collection = some st) (g : Bool) (k : String) :
    storeCount (add_successful_ticket cl g) k =
      storeCount cl k +
        (if (if g then [cl.current_month ++ "_gpt3"]
              else [cl.current_month, cl.current_date]).contains k
         then 1 else 0) := by
  unfold storeCount add_successful_ticket
  rw [hcoll]
  cases g <;> simp [countOf_upsertInc]

/-- `recordN` keeps the collection initialized and the data fields and
period keys fixed. -/
theorem recordN_stable (cl : ChatLogger) (st : TicketStore)
    (hcoll : cl.ticket_collection = some st) (g : Bool) :
    ∀ n, (∃ st', (recordN cl g n).ticket_collection = some st') ∧
      (recordN cl g n).data_username = cl.data_username ∧
      (recordN cl g n).data_assignee = cl.data_assignee ∧
      (recordN cl g n).current_month = cl.current_month ∧
      (recordN cl g n).current_date = cl.current_date := by
  intro n
  induction n with
  | zero => exact ⟨⟨st, hcoll⟩, rfl, rfl, rfl, rfl⟩
  | succ n ih =>
    obtain ⟨⟨st', hst'⟩, hu, ha, hm, hd⟩ := ih
    have hf := add_ticket_fields (recordN cl g n) g
    refine ⟨?_, ?_, ?_, ?_, ?_⟩
    · show ∃ st'', (add_successful_ticket (recordN cl g n) g).ticket_collection = some st''
      unfold add_successful_ticket
      rw [hst']
      exact ⟨_, rfl⟩
    · show (add_successful_ticket (recordN cl g n) g).data_username = _
      rw [hf.1, hu]
    · rw [show (recordN cl g (n+1)).data_assignee = _ from hf.2.1, ha]
    · rw [show (recordN cl g (n+1)).current_month = _ from hf.2.2.1, hm]
    · rw [show (recordN cl g (n+1)).current_date = _ from hf.2.2.2, hd]


/-- A string never equals itself with `"_gpt3"` appended. -/
theorem append_gpt3_ne (s : String) : s ++ "_gpt3" ≠ s := by
  intro h
  have hlen := congrArg String.length h
  rw [String.length_append] at hlen
  have h5 : ("_gpt3" : String).length = 5 := rfl
  omega

/-- C2 (amended): with the cheap-tier flag unset, N calls add exactly N to
the month counter and exactly N to the day counter of the effective user;
with the flag set, one call adds 1 to the month+cheap-tier counter only,
leaving the month and day counters unchanged. -/
theorem c2_record_ticket_counts (cl : ChatLogger) (st : TicketStore)
    (hcoll : cl.ticket_collection = some st)
    (hdg : cl.current_date ≠ cl.current_month ++ "_gpt3") :
    (∀ n, storeCount (recordN cl false n) cl.current_month =
        storeCount cl cl.current_month + n ∧
      storeCount (recordN cl false n) cl.current_date =
        storeCount cl cl.current_date + n) ∧
    (storeCount (add_successful_ticket cl true) (cl.current_month ++ "_gpt3") =
        storeCount cl (cl.current_month ++ "_gpt3") + 1 ∧
      storeCount (add_successful_ticket cl true) cl.current_month =
        storeCount cl cl.current_month ∧
      storeCount (add_successful_ticket cl true) cl.current_date =
        storeCount cl cl.current_date) := by
  constructor
  · intro n
    induction n with
    | zero => exact ⟨rfl, rfl⟩
    | succ n ih =>
      obtain ⟨⟨st', hst'⟩, _, _, hm, hd⟩ := recordN_stable cl st hcoll false n
      have hadd := fun k => storeCount_add (recordN cl false n) st' hst' false k
      constructor
      · show storeCount (add_successful_ticket (recordN cl false n) false)
            cl.current_month = _
        rw [hadd cl.current_month, ih.1, hm, hd]
        simp [List.contains]
        omega
      · show storeCount (add_successful_ticket (recordN cl false n) false)
            cl.current_date = _
        rw [hadd cl.current_date, ih.2, hm, hd]
        simp [List.contains]
        omega
  · have hadd := fun k => storeCount_add cl st hcoll true k
    refine ⟨?_, ?_, ?_⟩
    · rw [hadd (cl.current_month ++ "_gpt3")]
      simp [List.contains]
    · rw [hadd cl.current_month]
      simp [List.contains]
      exact fun h => append_gpt3_ne _ h.symm
    · rw [hadd cl.current_date]
      simp [List.contains]
      exact hdg

theorem c2_record_ticket_counts_witness :
    storeCount (recordN (mkLogger false false 0 0) false 3)
        (mkLogger false false 0 0).current_month =
      storeCount (mkLogger false false 0 0) (mkLogger false false 0 0).current_month
        + 3 ∧
    storeCount (recordN (mkLogger false false 0 0) false 3)
        (mkLogger false false 0 0).current_date =
      storeCount (mkLogger false false 0 0) (mkLogger false false 0 0).current_date
        + 3 :=
  (c2_record_ticket_counts (mkLogger false false 0 0) _ rfl (by decide)).1 3

/-- C2 counterexample: with the cheap-tier flag set, one `record_ticket`
call leaves the month and day counters at 0 — they are not incremented —
while the cheap-tier counter becomes 1. -/
theorem c2_counterexample :
    get_ticket_count (add_successful_ticket (mkLogger false false 0 0) true) = 0 ∧
    get_ticket_count (add_successful_ticket (mkLogger false false 0 0) true) true
      = 0 ∧
    get_ticket_count (add_successful_ticket (mkLogger false false 0 0) true) false
      true = 1 :=
  ⟨by decide, by decide, by decide⟩

/-! ## Theorems: dispatcher claims -/

/-- C8: a ping event with absent action short-circuits to exactly the pong
reply, dispatching nothing, for every payload and configuration. -/
theorem c8_ping_pong (cfg : ApiConfig) (b : RawBody) (logs : Option String) :
    webhook cfg (some "ping") none b logs = .replied pongReply [] := by
  rfl

/-- C9 (amended): on a validated closed-PR event with a well-formed
repository full name, the index refresh is dispatched unconditionally and
the analytics event is emitted iff the PR author (not the merging user)
is the bot login. -/
theorem c9_pr_closed_dispatch (cfg : ApiConfig) (b : RawBody)
    (logs : Option String) (req : PRRequest) (hreq : b.asPR = some req)
    (a z : String) (hsplit : splitSlash req.repository.full_name = [a, z]) :
    webhook cfg (some "pull_request") (some "closed") b logs =
      .replied successReply
        ((if cfg.sweepLogin = req.pull_request.user.login then
            [Task.analytics req.pull_request.merged_by.login "merged_sweep_pr"]
          else []) ++
          [.updateIndex req.repository.full_name req.installation.id]) := by
  show route cfg "pull_request" (some "closed") b logs = _
  unfold route
  simp only [reduceIte, String.reduceEq, false_and, if_false, and_self, ite_true]
  unfold handlePRClosed splitSlash2
  simp only [hreq, hsplit]


theorem c9_pr_closed_dispatch_witness :
    webhook cfgX (some "pull_request") (some "closed") prClosedBody none =
      .replied successReply
        [Task.analytics "alice" "merged_sweep_pr",
         Task.updateIndex "acme/widgets" 7] :=
  c9_pr_closed_dispatch cfgX prClosedBody none _ rfl "acme" "widgets" rfl

/-- C9 counterexample: a PR authored by the bot but merged by "alice"
does emit the analytics event although the merging user is not the bot
identity — the emission condition is on the PR author. -/
theorem c9_counterexample :
    (webhook cfgX (some "pull_request") (some "closed") prClosedBody none =
      .replied successReply
        [Task.analytics "alice" "merged_sweep_pr",
         Task.updateIndex "acme/widgets" 7]) ∧
    (prClosedBody.asPR.map fun r => r.pull_request.merged_by.login) = some "alice" ∧
    ("alice" : String) ≠ cfgX.sweepLogin :=
  ⟨rfl, rfl, by decide⟩

/-- C4 counterexample: a PR-review-comment event whose repository has no
description forwards `None` (not the empty string) as the repository
description of the comment-handling task. -/
theorem c4_counterexample :
    (webhook cfgX (some "pull_request_review_comment") (some "created")
        reviewCommentBody none =
      .replied successReply
        [.handleCommentTask "acme/widgets" none (some "fix this")
          (some "src/a.py") (some 42) "alice" 7 3]) ∧
    (reviewCommentBody.asCommentCreated.map fun r => r.repository.description) =
      some none :=
  ⟨rfl, rfl⟩


/-- C4 (amended): the issue-labeled and issue-comment ticket paths
normalize an absent issue body and repository description to the empty
string before forwarding; the issue-comment PR path and the
PR-review-comment path forward the repository description exactly as
received — possibly absent. -/
theorem c4_normalization_paths (cfg : ApiConfig) (b : RawBody)
    (logs : Option String) :
    (∀ req issue, b.asIssue = some req → req.issue = some issue →
      (issue.labels.map fun l => lowerList l.name).contains (lowerList "sweep")
          = true →
      webhook cfg (some "issues") (some "labeled") b logs =
        .replied successReply
          [.handleTicket issue.title (some (issue.body.getD "")) issue.number
            issue.html_url issue.user.login req.repository.full_name
            (some (req.repository.description.getD "")) req.installation.id
            none]) ∧
    (∀ req issue, b.asIssueComment = some req → req.issue = some issue →
      (issue.labels.map fun l => lowerList l.name).contains (lowerList "sweep")
          = true →
      req.comment.user.type = "User" →
      webhook cfg (some "issue_comment") (some "created") b logs =
        .replied successReply
          [.handleTicket issue.title (some (issue.body.getD "")) issue.number
            issue.html_url issue.user.login req.repository.full_name
            (some (req.repository.description.getD "")) req.installation.id
            (some req.comment.id)]) ∧
    (∀ req issue, b.asIssueComment = some req → req.issue = some issue →
      (issue.labels.map fun l => lowerList l.name).contains (lowerList "sweep")
          = false →
      issue.pull_request.isSome = true → issue.user.login = cfg.sweepLogin →
      req.comment.user.type = "User" →
      webhook cfg (some "issue_comment") (some "created") b logs =
        .replied successReply
          [.handleCommentTask req.repository.full_name req.repository.description
            (some req.comment.body) none none req.comment.user.login
            req.installation.id issue.number]) ∧
    (∀ req, b.asCommentCreated = some req →
      lowerContains "sweep/" req.pull_request.head.ref = true →
      webhook cfg (some "pull_request_review_comment") (some "created") b logs =
        .replied successReply
          [.handleCommentTask req.repository.full_name req.repository.description
            (some req.comment.body) req.comment.path req.comment.original_line
            req.comment.user.login req.installation.id
            req.pull_request.number]) := by
  refine ⟨?_, ?_, ?_, ?_⟩
  · intro req issue hreq hissue hlabel
    show route cfg "issues" (some "labeled") b logs = _
    unfold route
    simp only [reduceIte, String.reduceEq, false_and, if_false, and_self,
      ite_true, Option.some.injEq, and_false]
    unfold handleIssuesLabeled
    simp only [hreq, hissue, hlabel, if_true]
  · intro req issue hreq hissue hlabel htype
    show route cfg "issue_comment" (some "created") b logs = _
    unfold route
    simp only [reduceIte, String.reduceEq, false_and, if_false, and_self,
      ite_true, Option.some.injEq, and_false]
    unfold handleIssueComment
    simp only [hreq, hissue, hlabel, htype]
    simp
  · intro req issue hreq hissue hlabel hpr hlogin htype
    show route cfg "issue_comment" (some "created") b logs = _
    unfold route
    simp only [reduceIte, String.reduceEq, false_and, if_false, and_self,
      ite_true, Option.some.injEq, and_false]
    unfold handleIssueComment
    simp only [hreq, hissue, hlabel, hpr, hlogin, htype]
    simp
  · intro req hreq hbranch
    show route cfg "pull_request_review_comment" (some "created") b logs = _
    unfold route
    simp only [reduceIte, String.reduceEq, false_and, if_false, and_self,
      ite_true, Option.some.injEq, and_false]
    unfold handleReviewComment
    simp only [hreq, hbranch, if_true]


/-- `splitSlash2` raises exactly when the split does not have two pieces. -/
theorem splitSlash2_error_iff (s : String) :
    (∃ e, splitSlash2 s = .error e) ↔ (splitSlash s).length ≠ 2 := by
  unfold splitSlash2
  rcases h : splitSlash s with _ | ⟨a, _ | ⟨c, _ | ⟨d, rest⟩⟩⟩ <;> simp

/-- The repos-added loop raises exactly when some repository's full name
does not split into two pieces. -/
theorem reposAddedTasks_error_iff (instId : Nat) (repos : List EventRepository) :
    (∃ e, reposAddedTasks instId repos = .error e) ↔
      repos.any (fun repo => (splitSlash repo.full_name).length ≠ 2) = true := by
  induction repos with
  | nil => simp [reposAddedTasks]
  | cons repo rest ih =>
    unfold reposAddedTasks
    rcases hs : splitSlash2 repo.full_name with e | ⟨a, z⟩
    · have h2 : (splitSlash repo.full_name).length ≠ 2 :=
        (splitSlash2_error_iff repo.full_name).mp ⟨e, hs⟩
      simp [h2]
    · have h2 : ¬ (splitSlash repo.full_name).length ≠ 2 := by
        intro hne
        obtain ⟨e, he⟩ := (splitSlash2_error_iff repo.full_name).mpr hne
        rw [hs] at he
        cases he
      rcases hr : reposAddedTasks instId rest with e' | ts
      · have : ∃ e, reposAddedTasks instId rest = .error e := ⟨e', hr⟩
        simp only [List.any_cons, Bool.or_eq_true, decide_eq_true_eq]
        constructor
        · intro _; exact Or.inr (ih.mp this)
        · intro _; exact ⟨e', rfl⟩
      · have hnone : ¬ ∃ e, reposAddedTasks instId rest = .error e := by
          intro ⟨e', he'⟩; rw [hr] at he'; cases he'
        simp only [List.any_cons, Bool.or_eq_true, decide_eq_true_eq]
        constructor
        · intro ⟨e', he'⟩; cases he'
        · intro h
          rcases h with h | h
          · exact absurd h h2
          · exact absurd (ih.mpr h) hnone



/-- Classification of the issues-opened handler: throws exactly on a
validated payload with no issue object; replies are success or 422. -/
theorem handleIssuesOpened_classify (b : RawBody) :
    ((∃ x, handleIssuesOpened b = .thrown x) ↔
      (match b.asIssue with
       | some req => req.issue.isNone
       | none => false) = true) ∧
    (∀ r ts, handleIssuesOpened b = .replied r ts →
      r = successReply ∨ r = unprocessableReply) := by
  unfold handleIssuesOpened
  rcases hb : b.asIssue with _ | req
  · simp only [hb]
    constructor
    · simp
    · intro r ts h
      cases h
      exact Or.inr rfl
  · simp only [hb]
    rcases hi : req.issue with _ | issue
    · simp only [hi]
      constructor
      · simp
      · intro r ts h
        cases h
    · simp only [hi]
      constructor
      · simp
        split <;> simp
      · intro r ts h
        revert h
        split <;> intro h <;> cases h <;> exact Or.inl rfl


/-- Classification of the issues-labeled handler: never throws; replies
are success or 422. -/
theorem handleIssuesLabeled_classify (b : RawBody) :
    (∀ x, handleIssuesLabeled b ≠ .thrown x) ∧
    (∀ r ts, handleIssuesLabeled b = .replied r ts →
      r = successReply ∨ r = unprocessableReply) := by
  unfold handleIssuesLabeled
  rcases hb : b.asIssue with _ | req
  · simp only [hb]
    exact ⟨fun x h => (by cases h), fun r ts h => (by cases h; exact Or.inr rfl)⟩
  · simp only [hb]
    rcases hi : req.issue with _ | issue
    · simp only [hi]
      exact ⟨fun x h => (by cases h), fun r ts h => (by cases h; exact Or.inl rfl)⟩
    · simp only [hi]
      constructor
      · intro x h
        revert h
        split <;> intro h <;> cases h
      · intro r ts h
        revert h
        split <;> intro h <;> cases h <;> exact Or.inl rfl

/-- Classification of the issue-comment handler: throws exactly on a
validated payload with no issue object; replies are success or 422. -/
theorem handleIssueComment_classify (cfg : ApiConfig) (b : RawBody) :
    ((∃ x, handleIssueComment cfg b = .thrown x) ↔
      (match b.asIssueComment with
       | some req => req.issue.isNone
       | none => false) = true) ∧
    (∀ r ts, handleIssueComment cfg b = .replied r ts →
      r = successReply ∨ r = unprocessableReply) := by
  unfold handleIssueComment
  rcases hb : b.asIssueComment with _ | req
  · simp only [hb]
    constructor
    · simp
    · intro r ts h
      cases h
      exact Or.inr rfl
  · simp only [hb]
    rcases hi : req.issue with _ | issue
    · simp only [hi]
      constructor
      · simp
      · intro r ts h
        cases h
    · simp only [hi]
      constructor
      · simp
        split
        · simp
        · split <;> simp
      · intro r ts h
        revert h
        split
        · intro h; cases h; exact Or.inl rfl
        · split <;> intro h <;> cases h <;> exact Or.inl rfl

/-- Classification of the review-comment handler: never throws; replies
are success or 422. -/
theorem handleReviewComment_classify (b : RawBody) :
    (∀ x, handleReviewComment b ≠ .thrown x) ∧
    (∀ r ts, handleReviewComment b = .replied r ts →
      r = successReply ∨ r = unprocessableReply) := by
  unfold handleReviewComment
  rcases hb : b.asCommentCreated with _ | req
  · simp only [hb]
    exact ⟨fun x h => (by cases h), fun r ts h => (by cases h; exact Or.inr rfl)⟩
  · simp only [hb]
    constructor
    · intro x h
      revert h
      split <;> intro h <;> cases h
    · intro r ts h
      revert h
      split <;> intro h <;> cases h <;> exact Or.inl rfl

/-- Classification of the check-run handler: throws exactly when the
check run has no associated pull request; replies are success or 422. -/
theorem handleCheckRun_classify (b : RawBody) (logs : Option String) :
    ((∃ x, handleCheckRun b logs = .thrown x) ↔
      (match b.asCheckRun with
       | some req => req.check_run.pull_requests.isEmpty
       | none => false) = true) ∧
    (∀ r ts, handleCheckRun b logs = .replied r ts →
      r = successReply ∨ r = unprocessableReply) := by
  unfold handleCheckRun
  rcases hb : b.asCheckRun with _ | req
  · simp only [hb]
    constructor
    · simp
    · intro r ts h
      cases h
      exact Or.inr rfl
  · simp only [hb]
    rcases hpr : req.check_run.pull_requests with _ | ⟨pr0, rest⟩
    · simp only [hpr]
      constructor
      · simp
      · intro r ts h
        cases h
    · simp only [hpr]
      constructor
      · simp
      · intro r ts h
        cases h
        exact Or.inl rfl

/-- Classification of the repos-added handler: throws exactly when some
added repository's full name is malformed; replies are success or 422. -/
theorem handleReposAdded_classify (b : RawBody) :
    ((∃ x, handleReposAdded b = .thrown x) ↔
      (match b.asReposAdded with
       | some req =>
         req.repositories_added.any
           (fun repo => (splitSlash repo.full_name).length ≠ 2)
       | none => false) = true) ∧
    (∀ r ts, handleReposAdded b = .replied r ts →
      r = successReply ∨ r = unprocessableReply) := by
  unfold handleReposAdded
  rcases hb : b.asReposAdded with _ | req
  · simp only [hb]
    constructor
    · simp
    · intro r ts h
      cases h
      exact Or.inr rfl
  · simp only [hb]
    rcases hr : reposAddedTasks req.installation.id req.repositories_added
        with e | ts
    · simp only [hr]
      constructor
      · constructor
        · intro _
          exact (reposAddedTasks_error_iff req.installation.id
            req.repositories_added).mp ⟨e, hr⟩
        · intro _
          exact ⟨e, rfl⟩
      · intro r ts h
        cases h
    · simp only [hr]
      constructor
      · constructor
        · rintro ⟨x, hx⟩
          cases hx
        · intro h
          obtain ⟨e, he⟩ := (reposAddedTasks_error_iff req.installation.id
            req.repositories_added).mpr h
          rw [hr] at he
          cases he
      · intro r ts h
        cases h
        exact Or.inl rfl

/-- Classification of the installation-created handler: never throws;
replies are success or 422. -/
theorem handleInstallationCreated_classify (b : RawBody) :
    (∀ x, handleInstallationCreated b ≠ .thrown x) ∧
    (∀ r ts, handleInstallationCreated b = .replied r ts →
      r = successReply ∨ r = unprocessableReply) := by
  unfold handleInstallationCreated
  rcases hb : b.asInstallationCreated with _ | req
  · simp only [hb]
    exact ⟨fun x h => (by cases h), fun r ts h => (by cases h; exact Or.inr rfl)⟩
  · simp only [hb]
    exact ⟨fun x h => (by cases h), fun r ts h => (by cases h; exact Or.inl rfl)⟩

/-- Classification of the closed-PR handler: throws exactly when the
repository full name is malformed; replies are success or 422. -/
theorem handlePRClosed_classify (cfg : ApiConfig) (b : RawBody) :
    ((∃ x, handlePRClosed cfg b = .thrown x) ↔
      (match b.asPR with
       | some req => (splitSlash req.repository.full_name).length ≠ 2
       | none => false) = true) ∧
    (∀ r ts, handlePRClosed cfg b = .replied r ts →
      r = successReply ∨ r = unprocessableReply) := by
  unfold handlePRClosed
  rcases hb : b.asPR with _ | req
  · simp only [hb]
    constructor
    · simp
    · intro r ts h
      cases h
      exact Or.inr rfl
  · simp only [hb]
    rcases hs : splitSlash2 req.repository.full_name with e | ⟨a, z⟩
    · simp only [hs]
      constructor
      · constructor
        · intro _
          exact decide_eq_true
            ((splitSlash2_error_iff req.repository.full_name).mp ⟨e, hs⟩)
        · intro _
          exact ⟨e, rfl⟩
      · intro r ts h
        cases h
    · simp only [hs]
      constructor
      · constructor
        · rintro ⟨x, hx⟩
          cases hx
        · intro h
          obtain ⟨e, he⟩ := (splitSlash2_error_iff req.repository.full_name).mpr
            (of_decide_eq_true h)
          rw [hs] at he
          cases he
      · intro r ts h
        cases h
        exact Or.inl rfl

/-- Classification of the push handler: throws exactly when a raw dict
field is missing; replies are success. -/
theorem handlePush_classify (b : RawBody) :
    ((∃ x, handlePush b = .thrown x) ↔
      (b.raw_repository_full_name.isNone || b.raw_installation_id.isNone)
        = true) ∧
    (∀ r ts, handlePush b = .replied r ts →
      r = successReply ∨ r = unprocessableReply) := by
  unfold handlePush
  rcases hf : b.raw_repository_full_name with _ | fn
  · simp only [hf]
    constructor
    · simp
    · intro r ts h
      cases h
  · simp only [hf]
    rcases hi : b.raw_installation_id with _ | i
    · simp only [hi]
      constructor
      · simp
      · intro r ts h
        cases h
    · simp only [hi]
      constructor
      · simp
      · intro r ts h
        cases h
        exact Or.inl rfl


/-- A dispatcher outcome that can only be success or 422 can also be
classified among the three defined replies. -/
theorem replyWeaken {w : WResult}
    (h2 : ∀ r ts, w = .replied r ts → r = successReply ∨ r = unprocessableReply) :
    ∀ r ts, w = .replied r ts →
      r = successReply ∨ r = pongReply ∨ r = unprocessableReply :=
  fun r ts h => (h2 r ts h).elim Or.inl (fun x => Or.inr (Or.inr x))

/-- A dispatcher outcome that never throws satisfies the false
throw-characterization. -/
theorem throwIffFalse {w : WResult} (h : ∀ x, w ≠ .thrown x) :
    (∃ x, w = .thrown x) ↔ False :=
  ⟨fun ⟨x, hx⟩ => absurd hx (h x), False.elim⟩

/-- C3 (amended): the endpoint raises an uncaught exception exactly on the
inputs `dispatchRaises` names (absent event header; issues-opened or
issue-comment payload without an issue object; check-run with no
associated pull request; malformed repository full name on
installation-repositories-added or pull-request-closed; missing raw
fields on push); on every other input the reply is the success
acknowledgement, the pong, or the 422. -/
theorem c3_response_classification (cfg : ApiConfig) (event act : Option String)
    (b : RawBody) (logs : Option String) :
    ((∃ x, webhook cfg event act b logs = .thrown x) ↔
      dispatchRaises event act b = true) ∧
    (∀ r ts, webhook cfg event act b logs = .replied r ts →
      r = successReply ∨ r = pongReply ∨ r = unprocessableReply) := by
  rcases event with _ | e
  · constructor
    · constructor
      · intro _; rfl
      · intro _; exact ⟨.assertionError, rfl⟩
    · intro r ts h; cases h
  · have hw : webhook cfg (some e) act b logs = route cfg e act b logs := rfl
    simp only [hw]
    unfold route dispatchRaises
    by_cases h1 : e = "issues" ∧ act = some "opened"
    · obtain ⟨rfl, rfl⟩ := h1
      simp only [String.reduceEq, and_self, false_and, and_false, reduceIte,
        Option.some.injEq, reduceCtorEq, if_true, if_false, ite_true, ite_false]
      exact ⟨(handleIssuesOpened_classify b).1,
        replyWeaken (handleIssuesOpened_classify b).2⟩
    · simp only [if_neg h1]
      by_cases h2 : e = "issues" ∧ act = some "labeled"
      · obtain ⟨rfl, rfl⟩ := h2
        simp only [String.reduceEq, and_self, false_and, and_false, reduceIte,
          Option.some.injEq, reduceCtorEq, if_true, if_false, ite_true, ite_false]
        exact ⟨throwIffFalse (handleIssuesLabeled_classify b).1,
          replyWeaken (handleIssuesLabeled_classify b).2⟩
      · simp only [if_neg h2]
        by_cases h3 : e = "issue_comment" ∧ act = some "created"
        · obtain ⟨rfl, rfl⟩ := h3
          simp only [String.reduceEq, and_self, false_and, and_false, reduceIte,
            Option.some.injEq, reduceCtorEq, if_true, if_false, ite_true,
            ite_false]
          exact ⟨(handleIssueComment_classify cfg b).1,
            replyWeaken (handleIssueComment_classify cfg b).2⟩
        · simp only [if_neg h3]
          by_cases h4 : e = "pull_request_review_comment" ∧ act = some "created"
          · obtain ⟨rfl, rfl⟩ := h4
            simp only [String.reduceEq, and_self, false_and, and_false,
              reduceIte, Option.some.injEq, reduceCtorEq, if_true, if_false,
              ite_true, ite_false]
            exact ⟨throwIffFalse (handleReviewComment_classify b).1,
              replyWeaken (handleReviewComment_classify b).2⟩
          · simp only [if_neg h4]
            by_cases h5 : e = "pull_request_review" ∧ act = some "submitted"
            · obtain ⟨rfl, rfl⟩ := h5
              simp only [String.reduceEq, and_self, false_and, and_false,
                reduceIte, Option.some.injEq, reduceCtorEq, if_true, if_false,
                ite_true, ite_false]
              constructor
              · constructor
                · rintro ⟨x, hx⟩; cases hx
                · intro h; cases h
              · intro r ts h; cases h; exact Or.inl rfl
            · simp only [if_neg h5]
              by_cases h6 : e = "check_run" ∧ act = some "completed"
              · obtain ⟨rfl, rfl⟩ := h6
                simp only [String.reduceEq, and_self, false_and, and_false,
                  reduceIte, Option.some.injEq, reduceCtorEq, if_true, if_false,
                  ite_true, ite_false]
                exact ⟨(handleCheckRun_classify b logs).1,
                  replyWeaken (handleCheckRun_classify b logs).2⟩
              · simp only [if_neg h6]
                by_cases h7 : e = "installation_repositories" ∧ act = some "added"
                · obtain ⟨rfl, rfl⟩ := h7
                  simp only [String.reduceEq, and_self, false_and, and_false,
                    reduceIte, Option.some.injEq, reduceCtorEq, if_true,
                    if_false, ite_true, ite_false]
                  exact ⟨(handleReposAdded_classify b).1,
                    replyWeaken (handleReposAdded_classify b).2⟩
                · simp only [if_neg h7]
                  by_cases h8 : e = "installation" ∧ act = some "created"
                  · obtain ⟨rfl, rfl⟩ := h8
                    simp only [String.reduceEq, and_self, false_and, and_false,
                      reduceIte, Option.some.injEq, reduceCtorEq, if_true,
                      if_false, ite_true, ite_false]
                    exact ⟨throwIffFalse (handleInstallationCreated_classify b).1,
                      replyWeaken (handleInstallationCreated_classify b).2⟩
                  · simp only [if_neg h8]
                    by_cases h9 : e = "pull_request" ∧ act = some "closed"
                    · obtain ⟨rfl, rfl⟩ := h9
                      simp only [String.reduceEq, and_self, false_and,
                        and_false, reduceIte, Option.some.injEq, reduceCtorEq,
                        if_true, if_false, ite_true, ite_false]
                      exact ⟨(handlePRClosed_classify cfg b).1,
                        replyWeaken (handlePRClosed_classify cfg b).2⟩
                    · simp only [if_neg h9]
                      by_cases h10 : e = "push" ∧ act = none
                      · obtain ⟨rfl, rfl⟩ := h10
                        simp only [String.reduceEq, and_self, false_and,
                          and_false, reduceIte, Option.some.injEq,
                          reduceCtorEq, if_true, if_false, ite_true, ite_false]
                        exact ⟨(handlePush_classify b).1,
                          replyWeaken (handlePush_classify b).2⟩
                      · simp only [if_neg h10]
                        by_cases h11 : e = "ping" ∧ act = none
                        · obtain ⟨rfl, rfl⟩ := h11
                          simp only [String.reduceEq, and_self, false_and,
                            and_false, reduceIte, Option.some.injEq,
                            reduceCtorEq, if_true, if_false, ite_true,
                            ite_false]
                          constructor
                          · constructor
                            · rintro ⟨x, hx⟩; cases hx
                            · intro h; cases h
                          · intro r ts h; cases h; exact Or.inr (Or.inl rfl)
                        · simp only [if_neg h11]
                          constructor
                          · constructor
                            · rintro ⟨x, hx⟩; cases hx
                            · intro h; cases h
                          · intro r ts h; cases h; exact Or.inl rfl


/-- C3 counterexample: a request with no event header reaches the
`assert event is not None` line and raises an uncaught AssertionError —
not the success reply, the pong, or the 422. -/
theorem c3_counterexample :
    webhook cfgX none none emptyBody none = .thrown .assertionError := rfl

theorem c4_normalization_paths_witness :
    webhook cfgX (some "issues") (some "labeled") labeledBody none =
      .replied successReply
        [.handleTicket "Sweep: fix bug" (some "") 5
          "https://github.com/acme/widgets/issues/5" "bob" "acme/widgets"
          (some "") 7 none] ∧
    webhook cfgX (some "issue_comment") (some "created") prCommentBody none =
      .replied successReply
        [.handleCommentTask "acme/widgets" none (some "please revise") none none
          "alice" 7 5] :=
  ⟨(c4_normalization_paths cfgX labeledBody none).1 _ _ rfl rfl rfl,
   (c4_normalization_paths cfgX prCommentBody none).2.2.1 _ _ rfl rfl rfl rfl
     rfl rfl⟩

end Sweep
